import Mathlib

/-!
# Verification of the kube-shedder admission-control core

Shallow embedding of the `shedder` Go package: the in-flight counter
(`atomic.Int64`, so arithmetic wraps modulo 2^64 into the signed 64-bit
range), the two-tier hard/soft threshold logic, the pluggable shedding
decision policy, the HTTP middleware request gate, and the readiness
probe adapter.  Requests are modelled by their observable header map;
one request's journey through `Middleware` is modelled as the event
trace it produces (notifier invocation, response-writer operations,
downstream invocation) together with the state of the counter after the
deferred decrement has run.
-/

namespace KubeShedder

/-- Signed 64-bit wrap-around, as performed by Go's `atomic.Int64.Add`.
The numerals are 2^63 and 2^64. -/
def wrap64 (x : Int) : Int :=
  (x + 9223372036854775808) % 18446744073709551616 - 9223372036854775808

/-! ## Header maps (Go `net/http` / `net/textproto` semantics) -/

/-- Go `textproto` token-table membership (`validHeaderFieldByte`): the
byte must be an RFC 7230 token character, all of which are below 128.
Spelled with character codes. -/
def isTokenTableChar (c : Char) : Bool :=
  let n := c.toNat
  (48 ≤ n && n ≤ 57) || (65 ≤ n && n ≤ 90) || (97 ≤ n && n ≤ 122) ||
  n == 33 || (35 ≤ n && n ≤ 39) || n == 42 || n == 43 || n == 45 ||
  n == 46 || n == 94 || n == 95 || n == 96 || n == 124 || n == 126

/-- One pass of Go's `canonicalMIMEHeaderKey` loop: uppercase the first
letter and every letter following a hyphen, lowercase the rest. -/
def canonicalizeChars : Bool → List Char → List Char
  | _, [] => []
  | upper, c :: cs =>
    let c2 := if upper then c.toUpper else c.toLower
    c2 :: canonicalizeChars (c2 == '-') cs

/-- Go `textproto.CanonicalMIMEHeaderKey`: a key containing a byte that
is not a valid header-field byte is returned unchanged; otherwise it is
canonicalized. -/
def canonicalMIMEHeaderKey (s : String) : String :=
  if s.data.all isTokenTableChar then ⟨canonicalizeChars true s.data⟩ else s

/-- A header map: association list from canonical header keys to the
first (and, for this model, only) value stored under the key, as
`net/http` stores parsed request headers and as `Header.Set` writes. -/
def HeaderMap := List (String × String)

/-- Go `http.Header.Get`: canonicalize the lookup key; absent keys read
as the empty string. -/
def headerGet (h : List (String × String)) (key : String) : String :=
  match h.find? (fun p => p.1 == canonicalMIMEHeaderKey key) with
  | some p => p.2
  | none => ""

/-- Whether the map carries the key at all (under canonical lookup). -/
def headerHas (h : List (String × String)) (key : String) : Bool :=
  (h.find? (fun p => p.1 == canonicalMIMEHeaderKey key)).isSome

/-- Go `http.Header.Set`: store the value under the canonical key,
replacing any previous value. -/
def headerSetKV (h : List (String × String)) (key value : String) :
    List (String × String) :=
  let ck := canonicalMIMEHeaderKey key
  if h.any (fun p => p.1 == ck) then
    h.map (fun p => if p.1 == ck then (ck, value) else p)
  else
    h ++ [(ck, value)]

/-- Go `http.Header.Del`: remove the canonical key. -/
def headerDelK (h : List (String × String)) (key : String) :
    List (String × String) :=
  let ck := canonicalMIMEHeaderKey key
  h.filter (fun p => !(p.1 == ck))

/-- An incoming request, reduced to its observable metadata: the parsed
header map (keys already canonical, as `net/http` delivers them). -/
structure Request where
  headers : List (String × String)
deriving DecidableEq

/-! ## ShedReason (`type ShedReason int`) -/

/-- `ShedReasonHardLimit ShedReason = iota` — value 0. -/
def ShedReasonHardLimit : Int := 0

/-- `ShedReasonSoftLimit` — value 1. -/
def ShedReasonSoftLimit : Int := 1

/-- `func (r ShedReason) String() string`: the switch over the two
declared values, with default `"unknown"`. -/
def shedReasonString (r : Int) : String :=
  if r == ShedReasonHardLimit then "hard_limit"
  else if r == ShedReasonSoftLimit then "soft_limit"
  else "unknown"

/-! ## Configuration and the Shedder -/

/-- `HeaderMatcher`: header name and exact value to match for shedding. -/
structure HeaderMatcher where
  name : String
  value : String

/-- `Config`.  The `OnShed` callback body is an external collaborator;
the model records whether one is configured (`onShed`) and, in the
request trace, each invocation with its arguments. -/
structure Config where
  hardLimit : Int
  softLimit : Int
  shedDecider : Option (Request → Bool) := none
  shedHeader : Option HeaderMatcher := none
  onShed : Bool := false

/-- `Shedder`: limits, the in-flight counter, the decider selected at
construction, and whether a notifier is configured. -/
structure Shedder where
  hardLimit : Int
  softLimit : Int
  inflight : Int
  shedDecider : Option (Request → Bool)
  onShed : Bool

/-- `func New(cfg Config) *Shedder`.  `none` models the panic on
`HardLimit <= 0`; otherwise the decider is chosen with the programmable
decider taking precedence over the header matcher, and the counter
starts at the zero value. -/
def New (cfg : Config) : Option Shedder :=
  if cfg.hardLimit ≤ 0 then none
  else
    some
      { hardLimit := cfg.hardLimit
        softLimit := cfg.softLimit
        inflight := 0
        shedDecider :=
          match cfg.shedDecider with
          | some d => some d
          | none =>
            match cfg.shedHeader with
            | some hm =>
              some (fun r => headerGet r.headers hm.name == hm.value)
            | none => none
        onShed := cfg.onShed }

/-- `func NewWithLimits(hardLimit, softLimit int64) *Shedder`. -/
def NewWithLimits (hardLimit softLimit : Int) : Option Shedder :=
  New { hardLimit := hardLimit, softLimit := softLimit }

/-- `Inflight()`: atomic load of the counter. -/
def Shedder.Inflight (s : Shedder) : Int := s.inflight

/-- `IsOverloaded()`: in-flight strictly above the hard limit. -/
def Shedder.IsOverloaded (s : Shedder) : Bool :=
  s.inflight > s.hardLimit

/-- `IsSoftOverloaded()`: early-return false when the soft limit is not
configured, else the soft band test. -/
def Shedder.IsSoftOverloaded (s : Shedder) : Bool :=
  if s.softLimit ≤ 0 then false
  else s.inflight > s.softLimit && s.inflight ≤ s.hardLimit

/-- `increment()`: `inflight.Add(1)`, returning the new value. -/
def Shedder.increment (s : Shedder) : Int × Shedder :=
  let n := wrap64 (s.inflight + 1)
  (n, { s with inflight := n })

/-- `decrement()`: `inflight.Add(-1)`. -/
def Shedder.decrement (s : Shedder) : Shedder :=
  { s with inflight := wrap64 (s.inflight - 1) }

/-- `s.shedDecider != nil && s.shedDecider(r)`. -/
def deciderFires (s : Shedder) (r : Request) : Bool :=
  match s.shedDecider with
  | some d => d r
  | none => false

/-! ## The request gate (`Middleware`) as an event trace

One handled request produces, in execution order, the observable events
of the wrapped handler function: the notifier call, the operations on
the `http.ResponseWriter`, and the invocation of the downstream
handler. -/

/-- Observable events of one request's handling. -/
inductive Event where
  /-- `s.onShed(r, reason)` was invoked. -/
  | onShedCall (r : Request) (reason : Int)
  /-- `w.Header().Set(key, value)`. -/
  | headerSet (key value : String)
  /-- `w.Header().Del(key)` (performed inside `http.Error`). -/
  | headerDel (key : String)
  /-- `w.WriteHeader(code)`. -/
  | writeHeader (code : Int)
  /-- a body write on `w`. -/
  | write (body : String)
  /-- `next.ServeHTTP(w, r)`: the downstream handler was invoked. -/
  | serveNext (r : Request)
deriving DecidableEq

/-- `func (s *Shedder) shed(...)`: the notifier first (when configured),
then `Retry-After` and `X-Shed-Reason`, then `http.Error` (which deletes
`Content-Length`, sets `Content-Type` and `X-Content-Type-Options`,
writes status 503 and the message followed by a newline). -/
def Shedder.shedTrace (s : Shedder) (r : Request) (reason : Int) :
    List Event :=
  (if s.onShed then [Event.onShedCall r reason] else []) ++
  [Event.headerSet "Retry-After" "1",
   Event.headerSet "X-Shed-Reason" (shedReasonString reason),
   Event.headerDel "Content-Length",
   Event.headerSet "Content-Type" "text/plain; charset=utf-8",
   Event.headerSet "X-Content-Type-Options" "nosniff",
   Event.writeHeader 503,
   Event.write "Service Unavailable: load shedding active\n"]

/-- Result of one request through the middleware: the shedder state
after the deferred decrement has run, the event trace, and whether a
downstream panic propagated out. -/
structure HandleResult where
  shedder : Shedder
  trace : List Event
  panicked : Bool

/-- One request through `(s *Shedder).Middleware(next)`: increment the
counter first and decide against the returned value; hard limit, then
the soft band with the decider; otherwise serve downstream.  The
parameter `downstreamPanics` says whether `next.ServeHTTP` terminates
abnormally; the deferred `s.decrement()` runs on every path, a panic
included. -/
def Shedder.handle (s : Shedder) (r : Request) (downstreamPanics : Bool) :
    HandleResult :=
  let current := wrap64 (s.inflight + 1)
  let incremented : Shedder := { s with inflight := current }
  let body : List Event × Bool :=
    if current > s.hardLimit then
      (s.shedTrace r ShedReasonHardLimit, false)
    else if s.softLimit > 0 ∧ current > s.softLimit ∧ deciderFires s r then
      (s.shedTrace r ShedReasonSoftLimit, false)
    else
      ([Event.serveNext r], downstreamPanics)
  { shedder := incremented.decrement
    trace := body.1
    panicked := body.2 }

/-- How many times the downstream handler was invoked in a trace. -/
def downstreamCount (t : List Event) : Nat :=
  (t.filter (fun e => match e with | Event.serveNext _ => true | _ => false)).length

/-- How many times the notifier was invoked in a trace. -/
def onShedCount (t : List Event) : Nat :=
  (t.filter (fun e => match e with | Event.onShedCall _ _ => true | _ => false)).length

/-! ## Response writers -/

/-- The state of an `http.ResponseWriter`: headers, the status code once
written (the first `WriteHeader` wins), and the accumulated body. -/
structure ResponseWriter where
  headers : List (String × String)
  status : Option Int
  body : String
deriving DecidableEq

/-- A fresh writer, as handed to a handler by the server. -/
def emptyWriter : ResponseWriter :=
  { headers := [], status := none, body := "" }

/-- Interpret one event against a response writer; notifier calls and
the downstream invocation marker leave the writer unchanged. -/
def applyEvent (w : ResponseWriter) : Event → ResponseWriter
  | Event.onShedCall _ _ => w
  | Event.serveNext _ => w
  | Event.headerSet k v => { w with headers := headerSetKV w.headers k v }
  | Event.headerDel k => { w with headers := headerDelK w.headers k }
  | Event.writeHeader c =>
    if w.status.isSome then w else { w with status := some c }
  | Event.write b => { w with body := w.body ++ b }

/-- The response a trace writes onto a fresh writer. -/
def responseOf (t : List Event) : ResponseWriter :=
  t.foldl applyEvent emptyWriter

/-! ## Probe adapters -/

/-- `(s *Shedder) ReadyHandler()` applied to one probe request: reads
the in-flight count and compares it with the hard limit itself. -/
def Shedder.readyResponse (s : Shedder) : ResponseWriter :=
  let inflight := s.Inflight
  if inflight > s.hardLimit then
    { headers := headerSetKV [] "Content-Type" "text/plain; charset=utf-8"
      status := some 503
      body := "not ready: inflight=" ++ toString inflight ++
        ", hardLimit=" ++ toString s.hardLimit }
  else
    { headers := headerSetKV [] "Content-Type" "text/plain; charset=utf-8"
      status := some 200
      body := "ready: inflight=" ++ toString inflight ++
        ", hardLimit=" ++ toString s.hardLimit }

/-- `HealthHandler()` applied to one probe request: always 200, body
`"ok"`. -/
def healthResponse : ResponseWriter :=
  { headers := headerSetKV [] "Content-Type" "text/plain; charset=utf-8"
    status := some 200
    body := "ok" }

/-! ## Concrete instances used to witness the theorems -/

/-- A request carrying no headers. -/
def noHeaderReq : Request := { headers := [] }

/-- A request marked low priority. -/
def lowPriorityReq : Request := { headers := [("X-Priority", "low")] }

/-- A configuration whose header matcher demands the empty value. -/
def emptyValueCfg : Config :=
  { hardLimit := 1, softLimit := 0, shedHeader := some ⟨"X-Priority", ""⟩ }

/-- A configuration with a header matcher on `X-Priority: low` only. -/
def lowMatcherCfg : Config :=
  { hardLimit := 1, softLimit := 0, shedHeader := some ⟨"X-Priority", "low"⟩ }

/-- The shedder `New lowMatcherCfg` builds. -/
def lowMatcherShedder : Shedder :=
  { hardLimit := 1, softLimit := 0, inflight := 0
    shedDecider := some (fun r => headerGet r.headers "X-Priority" == "low")
    onShed := false }

/-- A decider that sheds every request, for the precedence witness. -/
def shedAllDecider : Request → Bool := fun _ => true

/-- A configuration carrying both a programmable decider and a header
matcher. -/
def bothPoliciesCfg : Config :=
  { hardLimit := 1, softLimit := 0, shedDecider := some shedAllDecider
    shedHeader := some ⟨"X-Priority", "low"⟩ }

/-- The shedder `New bothPoliciesCfg` builds. -/
def bothPoliciesShedder : Shedder :=
  { hardLimit := 1, softLimit := 0, inflight := 0
    shedDecider := some shedAllDecider, onShed := false }

/-- A configuration with no decision policy at all. -/
def noPolicyCfg : Config := { hardLimit := 5, softLimit := 2 }

/-- The shedder `New noPolicyCfg` builds. -/
def noPolicyShedder : Shedder :=
  { hardLimit := 5, softLimit := 2, inflight := 0
    shedDecider := none, onShed := false }

/-- A saturated shedder with a notifier configured: hard limit 3, five
requests already in flight. -/
def saturatedShedder : Shedder :=
  { hardLimit := 3, softLimit := 0, inflight := 5
    shedDecider := none, onShed := true }

/-- A shedder sitting exactly at its hard limit. -/
def atLimitShedder : Shedder :=
  { hardLimit := 2, softLimit := 0, inflight := 2
    shedDecider := none, onShed := false }

/-- A shedder whose soft limit is disabled (zero). -/
def softDisabledShedder : Shedder :=
  { hardLimit := 4, softLimit := 0, inflight := 9
    shedDecider := none, onShed := false }

/-! ## Helper lemmas -/

/-- The deferred decrement undoes the initial increment: for a counter
value in the signed 64-bit range, add-one then subtract-one lands back
on the starting value even through the wrap. -/
theorem wrap64_incr_decr (v : Int)
    (h1 : -9223372036854775808 ≤ v) (h2 : v < 9223372036854775808) :
    wrap64 (wrap64 (v + 1) - 1) = v := by
  unfold wrap64
  omega

/-- The hard-limit branch of `Middleware`. -/
theorem handle_trace_hard (s : Shedder) (r : Request) (p : Bool)
    (h : s.hardLimit < wrap64 (s.inflight + 1)) :
    (s.handle r p).trace = s.shedTrace r ShedReasonHardLimit := by
  simp only [Shedder.handle]
  rw [if_pos h]

/-- The soft-limit branch of `Middleware`. -/
theorem handle_trace_soft (s : Shedder) (r : Request) (p : Bool)
    (h1 : wrap64 (s.inflight + 1) ≤ s.hardLimit) (h2 : 0 < s.softLimit)
    (h3 : s.softLimit < wrap64 (s.inflight + 1))
    (h4 : deciderFires s r = true) :
    (s.handle r p).trace = s.shedTrace r ShedReasonSoftLimit := by
  simp only [Shedder.handle]
  rw [if_neg (by omega), if_pos ⟨h2, h3, h4⟩]

/-- The accept branch of `Middleware`. -/
theorem handle_trace_accept (s : Shedder) (r : Request) (p : Bool)
    (h1 : wrap64 (s.inflight + 1) ≤ s.hardLimit)
    (h2 : s.softLimit ≤ 0 ∨ wrap64 (s.inflight + 1) ≤ s.softLimit ∨
      deciderFires s r = false) :
    (s.handle r p).trace = [Event.serveNext r] := by
  simp only [Shedder.handle]
  rw [if_neg (by omega), if_neg]
  rintro ⟨c1, c2, c3⟩
  rcases h2 with h | h | h
  · omega
  · omega
  · rw [h] at c3
    exact Bool.false_ne_true c3

/-- A shed trace never invokes the downstream handler. -/
theorem downstreamCount_shedTrace (s : Shedder) (r : Request) (reason : Int) :
    downstreamCount (s.shedTrace r reason) = 0 := by
  unfold downstreamCount Shedder.shedTrace
  cases s.onShed <;> rfl

/-- A shed trace invokes the notifier once when configured, else not at
all. -/
theorem onShedCount_shedTrace (s : Shedder) (r : Request) (reason : Int) :
    onShedCount (s.shedTrace r reason) = if s.onShed then 1 else 0 := by
  unfold onShedCount Shedder.shedTrace
  cases s.onShed <;> rfl

/-- The response written by a shed trace, independent of whether the
notifier is configured. -/
theorem responseOf_shedTrace (s : Shedder) (r : Request) (reason : Int) :
    responseOf (s.shedTrace r reason) =
      { headers := [("Retry-After", "1"),
                    ("X-Shed-Reason", shedReasonString reason),
                    ("Content-Type", "text/plain; charset=utf-8"),
                    ("X-Content-Type-Options", "nosniff")]
        status := some 503
        body := "Service Unavailable: load shedding active\n" } := by
  unfold responseOf Shedder.shedTrace
  cases s.onShed <;> rfl

/-- An absent header reads back as the empty string. -/
theorem headerGet_of_not_has (h : List (String × String)) (key : String)
    (hh : headerHas h key = false) : headerGet h key = "" := by
  unfold headerHas at hh
  unfold headerGet
  cases hfind : h.find? (fun p => p.1 == canonicalMIMEHeaderKey key) with
  | none => rfl
  | some p => rw [hfind] at hh; exact absurd hh (by simp)

/-! ## Claim theorems -/

/-- C1: the admission decision is made against `n`, the value returned
by incrementing the in-flight counter (the count including this
request): `n` above the hard limit sheds with reason `HardLimit`; else,
inside a configured soft band with the decision policy firing, sheds
with reason `SoftLimit`; otherwise the downstream handler is invoked
exactly once; a shed request never reaches the downstream handler. -/
theorem middleware_admission_decision (s : Shedder) (r : Request) (p : Bool) :
    (s.hardLimit < wrap64 (s.inflight + 1) →
      (s.handle r p).trace = s.shedTrace r ShedReasonHardLimit ∧
      downstreamCount (s.handle r p).trace = 0) ∧
    (wrap64 (s.inflight + 1) ≤ s.hardLimit → 0 < s.softLimit →
      s.softLimit < wrap64 (s.inflight + 1) → deciderFires s r = true →
      (s.handle r p).trace = s.shedTrace r ShedReasonSoftLimit ∧
      downstreamCount (s.handle r p).trace = 0) ∧
    (wrap64 (s.inflight + 1) ≤ s.hardLimit →
      (s.softLimit ≤ 0 ∨ wrap64 (s.inflight + 1) ≤ s.softLimit ∨
        deciderFires s r = false) →
      (s.handle r p).trace = [Event.serveNext r] ∧
      downstreamCount (s.handle r p).trace = 1) := by
  refine ⟨fun h1 => ?_, fun h1 h2 h3 h4 => ?_, fun h1 h2 => ?_⟩
  · rw [handle_trace_hard s r p h1]
    exact ⟨rfl, downstreamCount_shedTrace s r _⟩
  · rw [handle_trace_soft s r p h1 h2 h3 h4]
    exact ⟨rfl, downstreamCount_shedTrace s r _⟩
  · rw [handle_trace_accept s r p h1 h2]
    exact ⟨rfl, rfl⟩

/-- C1 witness: a saturated shedder (5 in flight, hard limit 3) sheds
the sixth request with reason `HardLimit` and never serves downstream. -/
theorem middleware_admission_decision_witness :
    saturatedShedder.hardLimit < wrap64 (saturatedShedder.inflight + 1) ∧
    ((saturatedShedder.handle noHeaderReq false).trace =
      saturatedShedder.shedTrace noHeaderReq ShedReasonHardLimit ∧
     downstreamCount (saturatedShedder.handle noHeaderReq false).trace = 0) :=
  ⟨by decide,
   (middleware_admission_decision saturatedShedder noHeaderReq false).1 (by decide)⟩

/-- C2: on every exit path — hard shed, soft shed, acceptance, and a
downstream panic — the deferred decrement undoes the increment, so the
counter returns to its pre-request value (stated for counter values in
the signed 64-bit range of `atomic.Int64`). -/
theorem middleware_counter_restored (s : Shedder) (r : Request) (p : Bool)
    (h1 : -9223372036854775808 ≤ s.inflight)
    (h2 : s.inflight < 9223372036854775808) :
    (s.handle r p).shedder.inflight = s.inflight ∧
    (s.handle r p).shedder.hardLimit = s.hardLimit ∧
    (s.handle r p).shedder.softLimit = s.softLimit := by
  refine ⟨?_, rfl, rfl⟩
  show wrap64 (wrap64 (s.inflight + 1) - 1) = s.inflight
  exact wrap64_incr_decr s.inflight h1 h2

/-- C2 witness: a panicking downstream handler still leaves the counter
where it started. -/
theorem middleware_counter_restored_witness :
    (-9223372036854775808 ≤ noPolicyShedder.inflight ∧
     noPolicyShedder.inflight < 9223372036854775808) ∧
    (noPolicyShedder.handle lowPriorityReq true).shedder.inflight =
      noPolicyShedder.inflight :=
  ⟨⟨by decide, by decide⟩,
   (middleware_counter_restored noPolicyShedder lowPriorityReq true
     (by decide) (by decide)).1⟩

/-- C3: `IsOverloaded` holds exactly when the in-flight count strictly
exceeds the hard limit (false at equality), and the readiness handler
answers 200 exactly when `IsOverloaded` is false and 503 exactly when it
is true, recomputed from the live count. -/
theorem isOverloaded_readiness (s : Shedder) :
    (s.IsOverloaded = true ↔ s.hardLimit < s.inflight) ∧
    (s.inflight = s.hardLimit → s.IsOverloaded = false) ∧
    (s.readyResponse.status = some 200 ↔ s.IsOverloaded = false) ∧
    (s.readyResponse.status = some 503 ↔ s.IsOverloaded = true) := by
  unfold Shedder.IsOverloaded Shedder.readyResponse Shedder.Inflight
  by_cases h : s.hardLimit < s.inflight <;> simp [h] <;> omega

/-- C3 witness: at exactly the hard limit the shedder is not overloaded,
and the readiness probe answers 200. -/
theorem isOverloaded_readiness_witness :
    atLimitShedder.inflight = atLimitShedder.hardLimit ∧
    atLimitShedder.IsOverloaded = false ∧
    atLimitShedder.readyResponse.status = some 200 :=
  ⟨by decide,
   (isOverloaded_readiness atLimitShedder).2.1 (by decide),
   ((isOverloaded_readiness atLimitShedder).2.2.1).mpr
     ((isOverloaded_readiness atLimitShedder).2.1 (by decide))⟩

/-- C4: `IsSoftOverloaded` holds exactly on the soft band — soft limit
configured, count strictly above it, count at most the hard limit; it is
false whenever the soft limit is not positive, and false once the count
exceeds the hard limit. -/
theorem isSoftOverloaded_band (s : Shedder) :
    (s.IsSoftOverloaded = true ↔
      0 < s.softLimit ∧ s.softLimit < s.inflight ∧ s.inflight ≤ s.hardLimit) ∧
    (s.softLimit ≤ 0 → s.IsSoftOverloaded = false) ∧
    (s.hardLimit < s.inflight → s.IsSoftOverloaded = false) := by
  unfold Shedder.IsSoftOverloaded
  by_cases h : s.softLimit ≤ 0 <;> simp [h] <;> omega

/-- C4 witness: count above the hard limit is not reported as merely
soft-overloaded. -/
theorem isSoftOverloaded_band_witness :
    softDisabledShedder.hardLimit < softDisabledShedder.inflight ∧
    softDisabledShedder.IsSoftOverloaded = false :=
  ⟨by decide, (isSoftOverloaded_band softDisabledShedder).2.2 (by decide)⟩

/-- C5: `New` fails (panics) exactly when the configured hard limit is
not positive; every hard limit of at least 1 constructs a shedder whose
counter starts at zero, keeping the configured limits, for any soft
limit value. -/
theorem new_construction (cfg : Config) :
    (New cfg = none ↔ cfg.hardLimit ≤ 0) ∧
    (1 ≤ cfg.hardLimit →
      ∃ s, New cfg = some s ∧ s.inflight = 0 ∧
        s.hardLimit = cfg.hardLimit ∧ s.softLimit = cfg.softLimit) := by
  unfold New
  by_cases h : cfg.hardLimit ≤ 0
  · rw [if_pos h]
    exact ⟨⟨fun _ => h, fun _ => rfl⟩, fun hc => absurd hc (by omega)⟩
  · rw [if_neg h]
    refine ⟨⟨fun hc => absurd hc (by simp), fun hc => absurd hc h⟩, ?_⟩
    exact fun _ => ⟨_, rfl, rfl, rfl, rfl⟩

/-- C5 witness: hard limit 1 is the minimum valid configuration, here
with a negative soft limit, and the counter starts at zero. -/
theorem new_construction_witness :
    1 ≤ (1 : Int) ∧
    ∃ s, New { hardLimit := 1, softLimit := -7 } = some s ∧ s.inflight = 0 ∧
      s.hardLimit = 1 ∧ s.softLimit = -7 :=
  ⟨by decide,
   (new_construction { hardLimit := 1, softLimit := -7 }).2 (by decide)⟩

/-- C6: when both a programmable decider and a header matcher are
configured, the soft-shedding decision equals the programmable decider's
result for every request, and it stays that result whatever the header
matcher field holds — the matcher is never consulted. -/
theorem programmable_decider_precedence (cfg : Config) (d : Request → Bool)
    (s : Shedder) (r : Request)
    (hd : cfg.shedDecider = some d) (hs : New cfg = some s) :
    deciderFires s r = d r ∧
    (∀ hm s2, New { cfg with shedHeader := hm } = some s2 →
      deciderFires s2 r = d r) := by
  have main : ∀ hm s2, New { cfg with shedHeader := hm } = some s2 →
      deciderFires s2 r = d r := by
    intro hm s2 hs2
    unfold New at hs2
    by_cases h : cfg.hardLimit ≤ 0
    · rw [if_pos h] at hs2
      exact absurd hs2 (by simp)
    · rw [if_neg h] at hs2
      cases hs2
      simp [deciderFires, hd]
  refine ⟨?_, main⟩
  have hcfg : ({ cfg with shedHeader := cfg.shedHeader } : Config) = cfg := rfl
  have := main cfg.shedHeader s
  rw [hcfg] at this
  exact this hs

/-- C6 witness: with a shed-everything decider and a header matcher both
configured, a header-free request is still judged by the decider. -/
theorem programmable_decider_precedence_witness :
    deciderFires bothPoliciesShedder noHeaderReq = shedAllDecider noHeaderReq :=
  (programmable_decider_precedence bothPoliciesCfg shedAllDecider
    bothPoliciesShedder noHeaderReq rfl rfl).1

/-- C7: with neither a programmable decider nor a header matcher
configured, a request whose post-increment count stays at or under the
hard limit is always served downstream — even at counts above a positive
soft limit, soft overload never sheds. -/
theorem fail_open_without_policy (cfg : Config) (s : Shedder) (r : Request)
    (p : Bool) (i : Int)
    (hdec : cfg.shedDecider = none) (hhdr : cfg.shedHeader = none)
    (hs : New cfg = some s)
    (hn : wrap64 (i + 1) ≤ s.hardLimit) :
    (Shedder.handle { s with inflight := i } r p).trace =
      [Event.serveNext r] ∧
    downstreamCount (Shedder.handle { s with inflight := i } r p).trace = 1 := by
  have hnil : s.shedDecider = none := by
    unfold New at hs
    by_cases h : cfg.hardLimit ≤ 0
    · rw [if_pos h] at hs
      exact absurd hs (by simp)
    · rw [if_neg h] at hs
      cases hs
      simp [hdec, hhdr]
  have hfire : deciderFires { s with inflight := i } r = false := by
    unfold deciderFires
    rw [show ({ s with inflight := i } : Shedder).shedDecider = s.shedDecider
      from rfl, hnil]
  have ht := handle_trace_accept { s with inflight := i } r p hn
    (Or.inr (Or.inr hfire))
  rw [ht]
  exact ⟨rfl, rfl⟩

/-- C7 witness: hard limit 5, soft limit 2 and no policy configured —
the fourth concurrent request (post-increment count 4, above the soft
limit) is still served downstream. -/
theorem fail_open_without_policy_witness :
    wrap64 ((3 : Int) + 1) ≤ noPolicyShedder.hardLimit ∧
    (Shedder.handle { noPolicyShedder with inflight := 3 }
        lowPriorityReq false).trace = [Event.serveNext lowPriorityReq] :=
  ⟨by decide,
   (fail_open_without_policy noPolicyCfg noPolicyShedder lowPriorityReq
     false 3 rfl rfl rfl (by decide)).1⟩

/-- C8: every rejection the gate writes — hard or soft — carries status
503, `Retry-After: 1`, `X-Shed-Reason` equal to the string form of the
reason (`hard_limit` or `soft_limit`), and the short plaintext body. -/
theorem rejection_response_contract (s : Shedder) (r : Request) (p : Bool) :
    (s.hardLimit < wrap64 (s.inflight + 1) →
      (responseOf (s.handle r p).trace).status = some 503 ∧
      headerGet (responseOf (s.handle r p).trace).headers "Retry-After" = "1" ∧
      headerGet (responseOf (s.handle r p).trace).headers "X-Shed-Reason" =
        "hard_limit" ∧
      (responseOf (s.handle r p).trace).body =
        "Service Unavailable: load shedding active\n") ∧
    (wrap64 (s.inflight + 1) ≤ s.hardLimit → 0 < s.softLimit →
      s.softLimit < wrap64 (s.inflight + 1) → deciderFires s r = true →
      (responseOf (s.handle r p).trace).status = some 503 ∧
      headerGet (responseOf (s.handle r p).trace).headers "Retry-After" = "1" ∧
      headerGet (responseOf (s.handle r p).trace).headers "X-Shed-Reason" =
        "soft_limit" ∧
      (responseOf (s.handle r p).trace).body =
        "Service Unavailable: load shedding active\n") := by
  constructor
  · intro h1
    rw [handle_trace_hard s r p h1, responseOf_shedTrace s r _]
    exact ⟨rfl, rfl, rfl, rfl⟩
  · intro h1 h2 h3 h4
    rw [handle_trace_soft s r p h1 h2 h3 h4, responseOf_shedTrace s r _]
    exact ⟨rfl, rfl, rfl, rfl⟩

/-- C8 witness: the hard-shed response of the saturated shedder carries
exactly the contractual status, headers and body. -/
theorem rejection_response_contract_witness :
    saturatedShedder.hardLimit < wrap64 (saturatedShedder.inflight + 1) ∧
    ((responseOf (saturatedShedder.handle noHeaderReq false).trace).status =
        some 503 ∧
     headerGet (responseOf (saturatedShedder.handle noHeaderReq false).trace).headers
        "Retry-After" = "1" ∧
     headerGet (responseOf (saturatedShedder.handle noHeaderReq false).trace).headers
        "X-Shed-Reason" = "hard_limit" ∧
     (responseOf (saturatedShedder.handle noHeaderReq false).trace).body =
        "Service Unavailable: load shedding active\n") :=
  ⟨by decide,
   (rejection_response_contract saturatedShedder noHeaderReq false).1 (by decide)⟩

/-- C9: when a notifier is configured it is invoked exactly once per
shed decision, with the request and the reason, as the very first event
of the trace — before anything is written to the response; an accepted
request never invokes it. -/
theorem notifier_once_before_response (s : Shedder) (r : Request) (p : Bool) :
    (s.onShed = true → s.hardLimit < wrap64 (s.inflight + 1) →
      (s.handle r p).trace.head? =
        some (Event.onShedCall r ShedReasonHardLimit) ∧
      onShedCount (s.handle r p).trace = 1) ∧
    (s.onShed = true → wrap64 (s.inflight + 1) ≤ s.hardLimit →
      0 < s.softLimit → s.softLimit < wrap64 (s.inflight + 1) →
      deciderFires s r = true →
      (s.handle r p).trace.head? =
        some (Event.onShedCall r ShedReasonSoftLimit) ∧
      onShedCount (s.handle r p).trace = 1) ∧
    (wrap64 (s.inflight + 1) ≤ s.hardLimit →
      (s.softLimit ≤ 0 ∨ wrap64 (s.inflight + 1) ≤ s.softLimit ∨
        deciderFires s r = false) →
      onShedCount (s.handle r p).trace = 0) := by
  refine ⟨fun hcb h1 => ?_, fun hcb h1 h2 h3 h4 => ?_, fun h1 h2 => ?_⟩
  · rw [handle_trace_hard s r p h1]
    unfold Shedder.shedTrace
    rw [hcb]
    refine ⟨rfl, ?_⟩
    have := onShedCount_shedTrace s r ShedReasonHardLimit
    unfold Shedder.shedTrace at this
    rw [hcb] at this
    simpa using this
  · rw [handle_trace_soft s r p h1 h2 h3 h4]
    unfold Shedder.shedTrace
    rw [hcb]
    refine ⟨rfl, ?_⟩
    have := onShedCount_shedTrace s r ShedReasonSoftLimit
    unfold Shedder.shedTrace at this
    rw [hcb] at this
    simpa using this
  · rw [handle_trace_accept s r p h1 h2]
    rfl

/-- C9 witness: the saturated shedder's hard shed notifies first and
exactly once; the same shedder relieved to zero in flight accepts
without notifying. -/
theorem notifier_once_before_response_witness :
    (saturatedShedder.onShed = true ∧
     saturatedShedder.hardLimit < wrap64 (saturatedShedder.inflight + 1)) ∧
    ((saturatedShedder.handle noHeaderReq false).trace.head? =
       some (Event.onShedCall noHeaderReq ShedReasonHardLimit) ∧
     onShedCount (saturatedShedder.handle noHeaderReq false).trace = 1) ∧
    onShedCount (Shedder.handle { saturatedShedder with inflight := 0 }
      noHeaderReq false).trace = 0 :=
  ⟨⟨rfl, by decide⟩,
   (notifier_once_before_response saturatedShedder noHeaderReq false).1
     rfl (by decide),
   (notifier_once_before_response { saturatedShedder with inflight := 0 }
     noHeaderReq false).2.2 (by decide) (Or.inr (Or.inr rfl))⟩

/-- C10 counterexample: with a header matcher whose configured value is
the empty string, a request that does not carry the header at all is
judged shed-eligible — `Header.Get` reads an absent header as `""`,
which equals the configured value — refuting "a request that does not
carry the header is never shed-eligible" for every configured value. -/
theorem header_matcher_empty_value_counterexample :
    (New emptyValueCfg).map (fun s => deciderFires s noHeaderReq) =
      some true ∧
    headerHas noHeaderReq.headers "X-Priority" = false :=
  ⟨rfl, rfl⟩

/-- C10 (amended): with a header matcher configured and no programmable
decider, the decision policy returns true exactly when the standard
header lookup of the configured name yields a string equal
(case-sensitively) to the configured value, an absent header reading as
the empty string; consequently, for every non-empty configured value, a
request that does not carry the header is never shed-eligible. -/
theorem header_matcher_decision (cfg : Config) (hm : HeaderMatcher)
    (s : Shedder) (r : Request)
    (hdec : cfg.shedDecider = none) (hhdr : cfg.shedHeader = some hm)
    (hs : New cfg = some s) :
    deciderFires s r = (headerGet r.headers hm.name == hm.value) ∧
    (hm.value ≠ "" → headerHas r.headers hm.name = false →
      deciderFires s r = false) := by
  have hfire : deciderFires s r =
      (headerGet r.headers hm.name == hm.value) := by
    unfold New at hs
    by_cases h : cfg.hardLimit ≤ 0
    · rw [if_pos h] at hs
      exact absurd hs (by simp)
    · rw [if_neg h] at hs
      cases hs
      simp [deciderFires, hdec, hhdr]
  refine ⟨hfire, fun hv hcarry => ?_⟩
  rw [hfire, headerGet_of_not_has r.headers hm.name hcarry]
  exact beq_false_of_ne (fun he => hv he.symm)

/-- C10 witness: matcher `X-Priority: low` (non-empty value) never
sheds a request that carries no headers. -/
theorem header_matcher_decision_witness :
    (("low" : String) ≠ "" ∧
     headerHas noHeaderReq.headers "X-Priority" = false) ∧
    deciderFires lowMatcherShedder noHeaderReq = false :=
  ⟨⟨by decide, rfl⟩,
   (header_matcher_decision lowMatcherCfg ⟨"X-Priority", "low"⟩
     lowMatcherShedder noHeaderReq rfl rfl rfl).2 (by decide) rfl⟩

end KubeShedder
